import Mathlib

/-!
Verification development for the text-explanation repository.

The repository consists of two Python files, `app.py` and
`advanced_text_analyzer.py`.  The code below is a shallow embedding of the
repository's own logic: strings are `List Char`, Python's `str.replace` is
`replaceAll`, Python exceptions raised by the repository's own code are
`Except`, and every call into an external library (spaCy, nltk, textblob,
transformers, google-generativeai, gTTS) is a parameter: an oracle function
supplied to the embedded definition.  Python floats are modelled as exact
fractions (`PyFloat`), since the repository only ever divides, compares and
prints them.
-/

/-- `matchesAt pat s` is true when `pat` is a prefix of `s`
(character-by-character comparison). -/
def matchesAt : List Char → List Char → Bool
  | [], _ => true
  | _ :: _, [] => false
  | p :: ps, c :: cs => p == c && matchesAt ps cs

/-- `occursIn pat s` is true when `pat` occurs as a contiguous substring of
`s`, i.e. matches at some position. -/
def occursIn (pat : List Char) : List Char → Bool
  | [] => matchesAt pat []
  | c :: cs => matchesAt pat (c :: cs) || occursIn pat cs

/-- Fuelled left-to-right scan implementing Python's `str.replace(pat, rep)`:
replace each leftmost non-overlapping occurrence of `pat` by `rep` and resume
scanning after the consumed occurrence.  Each step consumes at least one
character of the remaining string, so fuel equal to the string length is
always enough (see `replaceAll`).  (Python's special behaviour for an empty
pattern is irrelevant here: every pattern the repository uses is nonempty.) -/
def replaceAllFuel (pat rep : List Char) : Nat → List Char → List Char
  | 0, s => s
  | _ + 1, [] => []
  | n + 1, c :: cs =>
    if matchesAt pat (c :: cs) then
      rep ++ replaceAllFuel pat rep n (List.drop (pat.length - 1) cs)
    else
      c :: replaceAllFuel pat rep n cs

/-- Python's `s.replace(pat, rep)` for a nonempty `pat`. -/
def replaceAll (pat rep s : List Char) : List Char :=
  replaceAllFuel pat rep s.length s

/-- Auxiliary for `splitWs`: accumulates the current (reversed) word. -/
def splitWsAux : List Char → List Char → List (List Char)
  | [], acc => if acc = [] then [] else [acc.reverse]
  | c :: cs, acc =>
    if c.isWhitespace then
      if acc = [] then splitWsAux cs [] else acc.reverse :: splitWsAux cs []
    else splitWsAux cs (c :: acc)

/-- Python's `str.split()` with no argument: split on runs of whitespace,
producing no empty tokens. -/
def splitWs (s : List Char) : List (List Char) := splitWsAux s []

/-- Python's `str.strip()`: remove leading and trailing whitespace. -/
def pyStrip (s : List Char) : List Char :=
  (((s.dropWhile Char.isWhitespace).reverse).dropWhile Char.isWhitespace).reverse

/-- Python's `str.isalnum()`: nonempty and every character alphanumeric. -/
def pyIsAlnum (w : List Char) : Bool := !w.isEmpty && w.all Char.isAlphanum

/-- Python's `', '.join(xs)`. -/
def joinComma (xs : List (List Char)) : List Char :=
  List.intercalate ((", ").data) xs

/-- Python's `'\n\n'.join(xs)`. -/
def joinNN (xs : List (List Char)) : List Char :=
  List.intercalate (("\n\n").data) xs

/-- A Python float value, kept as the exact fraction `num / den` (the
repository only ever produces floats by dividing, so `den` is positive for
every value the embedded code constructs). -/
structure PyFloat where
  num : Int
  den : Nat
deriving DecidableEq, Inhabited

/-- `fltGtInt q n` models the Python comparison `q > n` for an integer `n`
and a fraction `q` with positive denominator: `n < num/den ↔ n*den < num`. -/
def fltGtInt (q : PyFloat) (n : Int) : Bool := n * (q.den : Int) < q.num

/-- `fltAbsGtHalf q` models the Python comparison `abs(q) > 0.5` for a
fraction `q` with positive denominator: `|num/den| > 1/2 ↔ den < 2*|num|`. -/
def fltAbsGtHalf (q : PyFloat) : Bool := (q.den : Int) < 2 * (q.num.natAbs : Int)

/-- Nearest integer to `t / d` for `d > 0`, ties rounded away from zero;
used to model the decimal rendering of Python's `f"{x:.2f}"`. -/
def roundNearest (t : Int) (d : Nat) : Int :=
  let q : Nat := (2 * t.natAbs + d) / (2 * d)
  if 0 ≤ t then (q : Int) else -(q : Int)

/-- Decimal rendering of a `PyFloat` with two digits after the point,
modelling Python's `f"{x:.2f}"`. -/
def fmt2 (q : PyFloat) : List Char :=
  let r : Int := roundNearest (q.num * 100) q.den
  let sign : List Char := if r < 0 then (("-").data) else []
  let m : Nat := r.natAbs
  sign ++ (Nat.repr (m / 100)).data ++ ((".").data)
    ++ (if m % 100 < 10 then (("0").data) else []) ++ (Nat.repr (m % 100)).data

namespace AdvancedTextProcessor

/-- The fixed translation table of `AdvancedTextProcessor.translate_to_urdu`
(`app.py`, lines 158-166), in source order. -/
def translation_patterns : List (List Char × List Char) :=
  [(("the").data, ("اس").data),
   (("is").data, ("ہے").data),
   (("are").data, ("ہیں").data),
   (("and").data, ("اور").data),
   (("in").data, ("میں").data),
   (("of").data, ("کا").data),
   (("to").data, ("کو").data)]

/-- `AdvancedTextProcessor.translate_to_urdu` (`app.py`, lines 153-171):
`for eng, urdu in translation_patterns: text = text.replace(eng, urdu)`. -/
def translate_to_urdu (text : List Char) : List Char :=
  translation_patterns.foldl (fun t pr => replaceAll pr.1 pr.2 t) text

/-- The externally supplied values that `analyze_paragraph` extracts through
spaCy / textstat and that the fallback template of
`generate_comprehensive_explanation` (`app.py`, lines 110-132) interpolates.
The float metrics and the Python `repr`-renderings of the entity / phrase /
POS collections are kept as the strings the external libraries' values print
as, since they are produced wholly outside the repository. -/
structure AppAnalysis where
  total_words : Nat
  total_sentences : Nat
  reading_ease_s : List Char
  reading_grade_s : List Char
  pos_distribution_s : List Char
  named_entities_s : List Char
  key_phrases_s : List Char
deriving DecidableEq

/-- The warning text issued when the generative-AI call fails
(`app.py`, line 105). -/
def ai_failed_warning : List Char :=
  ("AI-powered explanation failed. Using fallback method.").data

/-- The prompt prefix built in `generate_comprehensive_explanation`
(`app.py`, line 101). -/
def explanation_prompt_preamble : List Char :=
  ("Provide a comprehensive, academic-style explanation of the following paragraph, breaking down its core ideas, linguistic nuances, and deeper meanings:\n\n").data

/-- `AdvancedTextProcessor._generate_interpretative_text` (`app.py`, lines
136-151).  `text_generator` is the external GPT-2 pipeline: `none` when model
setup failed, and `some g` otherwise, where `g prompt = none` models the call
raising an exception. -/
def generate_interpretative_text
    (text_generator : Option (List Char → Option (List Char)))
    (text : List Char) : List Char :=
  match text_generator with
  | none =>
      ("Interpretative explanation could not be generated due to model limitations.").data
  | some g =>
      match g ((("Explain the deeper meaning of: ").data) ++ text) with
      | some generated_text => generated_text
      | none => ("An interpretative explanation could not be generated.").data

/-- The f-string `explanation_template` of
`AdvancedTextProcessor.generate_comprehensive_explanation`
(`app.py`, lines 110-132), with the analysis values interpolated. -/
def explanation_template (a : AppAnalysis) (interpretative : List Char) : List Char :=
  (("\n        Paragraph Comprehensive Analysis:\n\n        1. Structural Overview:\n        - Total Words: ").data)
  ++ (Nat.repr a.total_words).data
  ++ (("\n        - Total Sentences: ").data)
  ++ (Nat.repr a.total_sentences).data
  ++ (("\n\n        2. Readability Metrics:\n        - Flesch Reading Ease: ").data)
  ++ a.reading_ease_s
  ++ ((" \n          (Higher score indicates easier readability)\n        - Flesch-Kincaid Grade Level: ").data)
  ++ a.reading_grade_s
  ++ (("\n\n        3. Linguistic Composition:\n        Part of Speech Distribution:\n        ").data)
  ++ a.pos_distribution_s
  ++ (("\n\n        4. Key Phrases and Entities:\n        Named Entities: ").data)
  ++ a.named_entities_s
  ++ (("\n        Key Phrases: ").data)
  ++ a.key_phrases_s
  ++ (("\n\n        5. Interpretative Explanation:\n        ").data)
  ++ interpretative
  ++ (("\n        ").data)

/-- `AdvancedTextProcessor.generate_comprehensive_explanation`
(`app.py`, lines 94-134).  Externals are oracles: `generation_model` is the
Gemini client (`none` when setup failed; `gen prompt = none` models
`generate_content` / `.text` raising, caught by the bare `except Exception`),
`text_generator` is the GPT-2 pipeline and `analysis` the spaCy/textstat
result consumed by the fallback template.  The returned pair is the produced
explanation together with the list of `st.warning` messages issued. -/
def generate_comprehensive_explanation
    (generation_model : Option (List Char → Option (List Char)))
    (text_generator : Option (List Char → Option (List Char)))
    (analysis : AppAnalysis) (text : List Char) : List Char × List (List Char) :=
  match generation_model with
  | some gen =>
      match gen (explanation_prompt_preamble ++ text) with
      | some response_text => (response_text, [])
      | none =>
          (explanation_template analysis (generate_interpretative_text text_generator text),
           [ai_failed_warning])
  | none =>
      (explanation_template analysis (generate_interpretative_text text_generator text), [])

/-- A concrete analysis value used to instantiate witnesses. -/
def sampleAnalysis : AppAnalysis :=
  { total_words := 6
    total_sentences := 1
    reading_ease_s := ("75.5").data
    reading_grade_s := ("5.2").data
    pos_distribution_s := ("DET: 2, NOUN: 2, AUX: 1, ADP: 1").data
    named_entities_s := ("[]").data
    key_phrases_s := ("['the cat', 'the box']").data }

end AdvancedTextProcessor

/-- The two control-flow outcomes of the submit handler in `main`
(`app.py`, lines 224-275): `process` stands for the then-branch of
`if input_text.strip():`, which constructs `AdvancedTextProcessor` /
`TextToSpeechAdvanced` and calls `generate_comprehensive_explanation`
(external analyzer, generative-AI and speech services); `warnEmptyInput`
stands for the else-branch, which only shows
`st.warning("Please enter a paragraph for analysis.")`. -/
inductive MainAction where
  | process : MainAction
  | warnEmptyInput : MainAction
deriving DecidableEq

/-- The input gate of `main` (`app.py`, lines 224-225 and 274-275):
`if input_text.strip():` — Python string truthiness, i.e. the stripped text
is nonempty. -/
def main_gate (input_text : List Char) : MainAction :=
  if pyStrip input_text ≠ [] then MainAction.process else MainAction.warnEmptyInput

namespace AdvancedTextAnalyzer

/-- Python exceptions the repository's own code in
`advanced_text_analyzer.py` can raise. -/
inductive PyErr where
  | zeroDivision : PyErr
deriving DecidableEq

/-- The external libraries consumed by `AdvancedTextAnalyzer`, as oracles:
`sent_tokenize` / `word_tokenize` are nltk, `ents` is spaCy's `doc.ents` as
`(entity text, label)` pairs in document order, `noun_chunks` spaCy's noun
chunks, `polarity` / `subjectivity` TextBlob's sentiment, and `summarize` the
transformers summarization pipeline (with `max_length=130, min_length=30,
do_sample=False` absorbed into the oracle), where `none` models the call
raising an exception. -/
structure Oracle where
  sent_tokenize : List Char → List (List Char)
  word_tokenize : List Char → List (List Char)
  ents : List Char → List (List Char × List Char)
  noun_chunks : List Char → List (List Char)
  polarity : List Char → PyFloat
  subjectivity : List Char → PyFloat
  summarize : List Char → Option (List Char)

/-- The `sentiment` dict of `sentiment_analysis`
(`advanced_text_analyzer.py`, lines 45-53). -/
structure Sentiment where
  polarity : PyFloat
  subjectivity : PyFloat
deriving DecidableEq, Inhabited

/-- The `linguistic_analysis` dict
(`advanced_text_analyzer.py`, lines 80-84). -/
structure LinguisticAnalysis where
  total_words : Nat
  unique_words : Nat
  avg_sentence_length : PyFloat
deriving DecidableEq, Inhabited

/-- The dict returned by `generate_comprehensive_explanation`
(`advanced_text_analyzer.py`, lines 103-110). -/
structure AnalyzerResult where
  full_explanation : List Char
  entities : List (List Char × List (List Char))
  sentiment : Sentiment
  key_phrases : List (List Char)
  linguistic_analysis : LinguisticAnalysis
  summary : List Char
deriving DecidableEq, Inhabited

/-- One step of the loop in `extract_key_entities`: append `txt` to the list
stored under `label`, creating the key at the end when it is new (Python
dicts preserve insertion order). -/
def addEntity (m : List (List Char × List (List Char)))
    (label txt : List Char) : List (List Char × List (List Char)) :=
  if m.any (fun p => p.1 == label) then
    m.map (fun p => if p.1 == label then (p.1, p.2 ++ [txt]) else p)
  else m ++ [(label, [txt])]

/-- `AdvancedTextAnalyzer.extract_key_entities`
(`advanced_text_analyzer.py`, lines 31-43), as a function of the spaCy
entity list. -/
def extract_key_entities (ents : List (List Char × List Char)) :
    List (List Char × List (List Char)) :=
  ents.foldl (fun m e => addEntity m e.2 e.1) []

/-- `entities.get('PERSON', [])` on the insertion-ordered mapping. -/
def getEntities (m : List (List Char × List (List Char)))
    (label : List Char) : List (List Char) :=
  match m.find? (fun p => p.1 == label) with
  | some p => p.2
  | none => []

/-- The value assigned to `summary` in the `except` branch of
`generate_comprehensive_explanation` (`advanced_text_analyzer.py`, line 77):
`sentences[0] if sentences else text[:200]`. -/
def summary_fallback (sentences : List (List Char)) (text : List Char) : List Char :=
  match sentences with
  | [] => text.take 200
  | s0 :: _ => s0

/-- The word `'positive' if p > 0 else 'negative' if p < 0 else 'neutral'`
interpolated in the sentiment component
(`advanced_text_analyzer.py`, line 95), for a fraction with positive
denominator. -/
def polarity_word (p : PyFloat) : List Char :=
  if 0 < p.num then ("positive").data
  else if p.num < 0 then ("negative").data
  else ("neutral").data

/-- The second element of `explanation_components`
(`advanced_text_analyzer.py`, lines 91-92): the entity section of the
assembled explanation. -/
def entity_component (entities : List (List Char × List (List Char))) : List Char :=
  (("Key Entities: Discovered ").data)
  ++ (Nat.repr ((entities.map (fun p => p.2.length)).sum)).data
  ++ ((" significant entities across categories like ").data)
  ++ joinComma (entities.map Prod.fst)
  ++ ((".").data)

/-- The `explanation_components` list
(`advanced_text_analyzer.py`, lines 87-101). -/
def explanation_components (la : LinguisticAnalysis)
    (entities : List (List Char × List (List Char))) (st : Sentiment)
    (key_phrases : List (List Char)) (summary : List Char) : List (List Char) :=
  [ (("Linguistic Overview: The text contains ").data)
      ++ (Nat.repr la.total_words).data
      ++ ((" words with an average sentence length of ").data)
      ++ fmt2 la.avg_sentence_length ++ ((".").data),
    entity_component entities,
    (("Sentiment Analysis: The text has a polarity of ").data)
      ++ fmt2 st.polarity ++ ((" (").data) ++ polarity_word st.polarity
      ++ ((") with a subjectivity of ").data) ++ fmt2 st.subjectivity ++ ((".").data),
    (("Key Phrases: ").data) ++ joinComma key_phrases,
    (("Summary: ").data) ++ summary ]

/-- `AdvancedTextAnalyzer.generate_comprehensive_explanation`
(`advanced_text_analyzer.py`, lines 55-110).  Deviations forced by the
shallow embedding: `list(set(noun_chunks))` has an unspecified order in
Python, modelled as first-occurrence deduplication; external calls go
through the oracle `o`.  The computation of `avg_sentence_length` divides by
`len(sentences)`, so with zero sentences the Python code raises
`ZeroDivisionError`, modelled as `Except.error PyErr.zeroDivision`. -/
def generate_comprehensive_explanation (o : Oracle) (text : List Char) :
    Except PyErr AnalyzerResult :=
  let sentences := o.sent_tokenize text
  let entities := extract_key_entities (o.ents text)
  let sentiment : Sentiment :=
    { polarity := o.polarity text, subjectivity := o.subjectivity text }
  let noun_chunks := o.noun_chunks text
  let key_phrases := noun_chunks.dedup.take 10
  let summary :=
    match o.summarize text with
    | some s => s
    | none => summary_fallback sentences text
  if sentences.length = 0 then Except.error PyErr.zeroDivision
  else
    let linguistic_analysis : LinguisticAnalysis :=
      { total_words := (o.word_tokenize text).length
        unique_words :=
          (((o.word_tokenize text).filter pyIsAlnum).map
            (List.map Char.toLower)).dedup.length
        avg_sentence_length :=
          { num := ((sentences.map (fun s => (o.word_tokenize s).length)).sum : Int)
            den := sentences.length } }
    Except.ok
      { full_explanation :=
          joinNN (explanation_components linguistic_analysis entities sentiment
            key_phrases summary)
        entities := entities
        sentiment := sentiment
        key_phrases := key_phrases
        linguistic_analysis := linguistic_analysis
        summary := summary }

/-- The `summary` field of a successful analysis, `none` on failure. -/
def summaryOf : Except PyErr AnalyzerResult → Option (List Char)
  | Except.ok r => some r.summary
  | Except.error _ => none

/-- Whether the analysis returned a result (did not raise). -/
def isOkB : Except PyErr AnalyzerResult → Bool
  | Except.ok _ => true
  | Except.error _ => false

/-- The fixed `insights_templates` list of `generate_advanced_insights`
(`advanced_text_analyzer.py`, lines 118-127); `\x7b`/`\x7d` are the literal
braces of the Python format placeholders. -/
def insights_templates : List (List Char) :=
  [ ("The text reveals a complex narrative characterized by \x7bcomplexity_description\x7d. Key entities such as \x7bentities\x7d play a pivotal role in understanding its deeper meaning.").data,
    ("Diving into the linguistic landscape, we uncover a \x7bsentiment_tone\x7d exploration that touches upon critical themes like \x7bkey_phrases\x7d.").data,
    ("This text is a nuanced composition that balances \x7blinguistic_characteristics\x7d, offering insights into \x7bthematic_elements\x7d.").data ]

/-- `insights_templates[i].format(...)`: the interpolation of the keyword
arguments of `.format` (`advanced_text_analyzer.py`, lines 133-140) into the
`i`-th template; each template mentions a subset of the keywords and `.format`
ignores unused keyword arguments. -/
def format_insights_template (i : Fin 3)
    (complexity_description entities sentiment_tone key_phrases
      linguistic_characteristics thematic_elements : List Char) : List Char :=
  match i with
  | ⟨0, _⟩ =>
      (("The text reveals a complex narrative characterized by ").data)
      ++ complexity_description
      ++ ((". Key entities such as ").data) ++ entities
      ++ ((" play a pivotal role in understanding its deeper meaning.").data)
  | ⟨1, _⟩ =>
      (("Diving into the linguistic landscape, we uncover a ").data)
      ++ sentiment_tone
      ++ ((" exploration that touches upon critical themes like ").data)
      ++ key_phrases ++ ((".").data)
  | ⟨2, _⟩ =>
      (("This text is a nuanced composition that balances ").data)
      ++ linguistic_characteristics
      ++ ((", offering insights into ").data)
      ++ thematic_elements ++ ((".").data)

/-- The `complexity_desc` value (`advanced_text_analyzer.py`, line 130). -/
def complexity_description (a : AnalyzerResult) : List Char :=
  if fltGtInt a.linguistic_analysis.avg_sentence_length 15 then
    ("intricate linguistic patterns").data
  else ("concise communication").data

/-- The `sentiment_tone` value (`advanced_text_analyzer.py`, line 131). -/
def sentiment_tone (a : AnalyzerResult) : List Char :=
  if fltAbsGtHalf a.sentiment.polarity then ("emotionally charged").data
  else ("balanced").data

/-- The `entities` keyword argument of `.format`
(`advanced_text_analyzer.py`, line 135). -/
def person_entities (a : AnalyzerResult) : List Char :=
  joinComma ((getEntities a.entities (("PERSON").data)).take 3)

/-- The `key_phrases` keyword argument of `.format`
(`advanced_text_analyzer.py`, line 137). -/
def top_key_phrases (a : AnalyzerResult) : List Char :=
  joinComma (a.key_phrases.take 3)

/-- `AdvancedTextAnalyzer.generate_advanced_insights`
(`advanced_text_analyzer.py`, lines 112-142).  The unseeded
`random.choice(insights_templates)` is modelled by the index `choice` into
the three-element template list; everything else is as in the source, with
the `ZeroDivisionError` of the inner `generate_comprehensive_explanation`
propagating. -/
def generate_advanced_insights (o : Oracle) (choice : Fin 3) (text : List Char) :
    Except PyErr (List Char) :=
  match generate_comprehensive_explanation o text with
  | Except.error e => Except.error e
  | Except.ok analysis =>
      let complexity_desc :=
        if fltGtInt analysis.linguistic_analysis.avg_sentence_length 15 then
          ("intricate linguistic patterns").data
        else ("concise communication").data
      let tone :=
        if fltAbsGtHalf analysis.sentiment.polarity then
          ("emotionally charged").data
        else ("balanced").data
      Except.ok (format_insights_template choice
        complexity_desc
        (joinComma ((getEntities analysis.entities (("PERSON").data)).take 3))
        tone
        (joinComma (analysis.key_phrases.take 3))
        (("brevity and depth").data)
        (("contemporary discourse").data))

/-- A concrete oracle for witnesses, mirroring the behaviour of the real
libraries on whitespace-free short inputs: the tokenizers return no token for
empty text and treat a short word as one sentence/token, no entities or noun
chunks are found, the sentiment is neutral and the summarization call raises
(e.g. because the input is far below `min_length`). -/
def failOracle : Oracle :=
  { sent_tokenize := fun t => if t.any (fun c => !c.isWhitespace) then [t] else []
    word_tokenize := fun t => splitWs t
    ents := fun _ => []
    noun_chunks := fun _ => []
    polarity := fun _ => { num := 0, den := 1 }
    subjectivity := fun _ => { num := 0, den := 1 }
    summarize := fun _ => none }

/-- The concrete analysis result of the one-word text `"hi"` under
`failOracle`, used to instantiate witnesses. -/
def hiAnalysis : AnalyzerResult :=
  match generate_comprehensive_explanation failOracle (("hi").data) with
  | Except.ok a => a
  | Except.error _ => default

end AdvancedTextAnalyzer

/-- A pattern cannot match at the start of `u ++ X` inside `u` when no
character of `u` belongs to the pattern, so occurrences in `u ++ X` are
exactly occurrences in `X`. -/
theorem occursIn_append_of_disjoint (q u X : List Char) (hq : q ≠ [])
    (hu : ∀ r ∈ u, r ∉ q) : occursIn q (u ++ X) = occursIn q X := by
  induction u with
  | nil => rfl
  | cons r u' ih =>
    have hr : r ∉ q := hu r (List.mem_cons_self r u')
    have hm : matchesAt q (r :: (u' ++ X)) = false := by
      cases q with
      | nil => exact absurd rfl hq
      | cons q0 qt =>
        have hne : (q0 == r) = false := by
          simp only [beq_eq_false_iff_ne, ne_eq]
          intro h
          exact hr (h ▸ List.mem_cons_self q0 qt)
        simp [matchesAt, hne]
    have ih' := ih (fun a ha => hu a (List.mem_cons_of_mem r ha))
    simpa [occursIn, hm] using ih'

/-- If a word whose characters avoid the replacement string matches at the
head of the output of the replacement scan, it already matched at the head of
the input. -/
theorem matchesAt_of_matchesAt_replaceAllFuel (pat rep : List Char) (hrep : rep ≠ []) :
    ∀ (fuel : Nat) (s q : List Char), (∀ a ∈ q, a ∉ rep) →
      matchesAt q (replaceAllFuel pat rep fuel s) = true → matchesAt q s = true := by
  intro fuel
  induction fuel with
  | zero => intro s q _ h; simpa [replaceAllFuel] using h
  | succ n ih =>
    intro s q hq h
    cases s with
    | nil => simpa [replaceAllFuel] using h
    | cons c cs =>
      by_cases hm : matchesAt pat (c :: cs) = true
      · simp only [replaceAllFuel, hm, if_true] at h
        cases q with
        | nil => rfl
        | cons q0 qt =>
          cases rep with
          | nil => exact absurd rfl hrep
          | cons r rt =>
            have hq0 : q0 ∉ (r :: rt) := hq q0 (List.mem_cons_self q0 qt)
            simp only [List.cons_append, matchesAt, Bool.and_eq_true, beq_iff_eq] at h
            exact absurd (h.1 ▸ List.mem_cons_self r rt) hq0
      · simp only [replaceAllFuel, hm, if_false] at h
        cases q with
        | nil => rfl
        | cons q0 qt =>
          simp only [matchesAt, Bool.and_eq_true, beq_iff_eq] at h
          have hqt := ih cs qt (fun a ha => hq a (List.mem_cons_of_mem q0 ha)) h.2
          simp [matchesAt, h.1, hqt]

/-- Substring occurrences survive `List.drop`-ing a prefix being absent:
if `q` does not occur in `s`, it does not occur in any `List.drop k s`. -/
theorem occursIn_drop (q : List Char) :
    ∀ (k : Nat) (s : List Char), occursIn q s = false →
      occursIn q (List.drop k s) = false := by
  intro k
  induction k with
  | zero => intro s h; simpa using h
  | succ n ih =>
    intro s h
    cases s with
    | nil => simpa using h
    | cons c cs =>
      have h2 : occursIn q cs = false := by
        simp only [occursIn, Bool.or_eq_false_iff] at h
        exact h.2
      simpa using ih cs h2

/-- After replacing every occurrence of `pat` by `rep`, no occurrence of
`pat` remains, provided `rep` is nonempty and shares no character with
`pat`. -/
theorem occursIn_replaceAllFuel_self (pat rep : List Char) (hpat : pat ≠ [])
    (hrep : rep ≠ []) (hdisj : ∀ a ∈ pat, a ∉ rep) :
    ∀ (fuel : Nat) (s : List Char), s.length ≤ fuel →
      occursIn pat (replaceAllFuel pat rep fuel s) = false := by
  intro fuel
  induction fuel with
  | zero =>
    intro s hs
    have hsnil : s = [] := List.length_eq_zero.mp (Nat.le_zero.mp hs)
    subst hsnil
    cases pat with
    | nil => exact absurd rfl hpat
    | cons p pt => simp [replaceAllFuel, occursIn, matchesAt]
  | succ n ih =>
    intro s hs
    cases s with
    | nil =>
      cases pat with
      | nil => exact absurd rfl hpat
      | cons p pt => simp [replaceAllFuel, occursIn, matchesAt]
    | cons c cs =>
      have hcs : cs.length ≤ n := by
        simpa [List.length_cons] using Nat.succ_le_succ_iff.mp hs
      by_cases hm : matchesAt pat (c :: cs) = true
      · have hXlen : (List.drop (pat.length - 1) cs).length ≤ n := by
          rw [List.length_drop]
          exact le_trans (Nat.sub_le _ _) hcs
        have hrev : ∀ r ∈ rep, r ∉ pat := fun r hr hp => hdisj r hp hr
        have hX := ih (List.drop (pat.length - 1) cs) hXlen
        simp only [replaceAllFuel, hm, if_true]
        rw [occursIn_append_of_disjoint pat rep _ hpat hrev]
        exact hX
      · have hX := ih cs hcs
        have hhead : matchesAt pat (c :: replaceAllFuel pat rep n cs) = false := by
          cases hb : matchesAt pat (c :: replaceAllFuel pat rep n cs) with
          | false => rfl
          | true =>
            exfalso
            cases pat with
            | nil => exact absurd rfl hpat
            | cons p0 pt =>
              simp only [matchesAt, Bool.and_eq_true, beq_iff_eq] at hb
              have hsub : ∀ a ∈ pt, a ∉ rep :=
                fun a ha => hdisj a (List.mem_cons_of_mem p0 ha)
              have hpt := matchesAt_of_matchesAt_replaceAllFuel (p0 :: pt) rep hrep n cs pt hsub hb.2
              have : matchesAt (p0 :: pt) (c :: cs) = true := by
                simp [matchesAt, hb.1, hpt]
              exact hm this
        simp [replaceAllFuel, hm, occursIn, hhead, hX]

/-- Replacing occurrences of one pattern cannot create an occurrence of a
word `q` that did not occur before, provided the replacement string shares no
character with `q`. -/
theorem occursIn_replaceAllFuel_other (pat rep q : List Char) (hrep : rep ≠ [])
    (hdisj : ∀ a ∈ rep, a ∉ q) :
    ∀ (fuel : Nat) (s : List Char), occursIn q s = false →
      occursIn q (replaceAllFuel pat rep fuel s) = false := by
  intro fuel
  induction fuel with
  | zero => intro s h; simpa [replaceAllFuel] using h
  | succ n ih =>
    intro s h
    cases s with
    | nil => simpa [replaceAllFuel] using h
    | cons c cs =>
      have h1 : matchesAt q (c :: cs) = false ∧ occursIn q cs = false := by
        simpa [occursIn, Bool.or_eq_false_iff] using h
      have hq : q ≠ [] := by
        intro hqe
        subst hqe
        simp [matchesAt] at h1
      by_cases hm : matchesAt pat (c :: cs) = true
      · have hdrop := occursIn_drop q (pat.length - 1) cs h1.2
        have hX := ih (List.drop (pat.length - 1) cs) hdrop
        simp only [replaceAllFuel, hm, if_true]
        rw [occursIn_append_of_disjoint q rep _ hq hdisj]
        exact hX
      · have hY := ih cs h1.2
        have hhead : matchesAt q (c :: replaceAllFuel pat rep n cs) = false := by
          cases hb : matchesAt q (c :: replaceAllFuel pat rep n cs) with
          | false => rfl
          | true =>
            exfalso
            cases q with
            | nil => exact absurd rfl hq
            | cons q0 qt =>
              simp only [matchesAt, Bool.and_eq_true, beq_iff_eq] at hb
              have hsub : ∀ a ∈ qt, a ∉ rep :=
                fun a ha har => hdisj a har (List.mem_cons_of_mem q0 ha)
              have hqt := matchesAt_of_matchesAt_replaceAllFuel pat rep hrep n cs qt hsub hb.2
              have : matchesAt (q0 :: qt) (c :: cs) = true := by
                simp [matchesAt, hb.1, hqt]
              rw [h1.1] at this
              exact Bool.false_ne_true this
        simp [replaceAllFuel, hm, occursIn, hhead, hY]

/-- A string in which the pattern does not occur is returned unchanged by the
replacement scan. -/
theorem replaceAllFuel_eq_self (pat rep : List Char) :
    ∀ (fuel : Nat) (s : List Char), occursIn pat s = false →
      replaceAllFuel pat rep fuel s = s := by
  intro fuel
  induction fuel with
  | zero => intro s _; rfl
  | succ n ih =>
    intro s h
    cases s with
    | nil => rfl
    | cons c cs =>
      have h1 : matchesAt pat (c :: cs) = false ∧ occursIn pat cs = false := by
        simpa [occursIn, Bool.or_eq_false_iff] using h
      simp [replaceAllFuel, h1.1, ih cs h1.2]

/-- `replaceAll` on a string without the pattern is the identity. -/
theorem replaceAll_eq_self (pat rep s : List Char) (h : occursIn pat s = false) :
    replaceAll pat rep s = s :=
  replaceAllFuel_eq_self pat rep s.length s h

/-- `replaceAll` leaves no occurrence of its own pattern. -/
theorem occursIn_replaceAll_self (pat rep : List Char) (hpat : pat ≠ [])
    (hrep : rep ≠ []) (hdisj : ∀ a ∈ pat, a ∉ rep) (s : List Char) :
    occursIn pat (replaceAll pat rep s) = false :=
  occursIn_replaceAllFuel_self pat rep hpat hrep hdisj s.length s (le_refl _)

/-- `replaceAll` introduces no occurrence of an unrelated word. -/
theorem occursIn_replaceAll_other (pat rep q s : List Char) (hrep : rep ≠ [])
    (hdisj : ∀ a ∈ rep, a ∉ q) (h : occursIn q s = false) :
    occursIn q (replaceAll pat rep s) = false :=
  occursIn_replaceAllFuel_other pat rep q hrep hdisj s.length s h

/-- A fold of `replaceAll` steps over a string containing none of the
patterns is the identity. -/
theorem foldl_replaceAll_eq_self (l : List (List Char × List Char)) (s : List Char)
    (h : ∀ p ∈ l, occursIn p.1 s = false) :
    l.foldl (fun t pr => replaceAll pr.1 pr.2 t) s = s := by
  induction l with
  | nil => rfl
  | cons pr l' ih =>
    have h0 : replaceAll pr.1 pr.2 s = s :=
      replaceAll_eq_self pr.1 pr.2 s (h pr (List.mem_cons_self pr l'))
    simp only [List.foldl_cons, h0]
    exact ih (fun p hp => h p (List.mem_cons_of_mem pr hp))

/-- A fold of `replaceAll` steps whose replacement strings avoid the
characters of `q` cannot introduce an occurrence of `q`. -/
theorem foldl_replaceAll_preserves (q : List Char) (l : List (List Char × List Char)) :
    ∀ (t : List Char), occursIn q t = false → (∀ p ∈ l, p.2 ≠ []) →
      (∀ p ∈ l, ∀ a ∈ p.2, a ∉ q) →
      occursIn q (l.foldl (fun t pr => replaceAll pr.1 pr.2 t) t) = false := by
  induction l with
  | nil => intro t h _ _; simpa using h
  | cons pr l' ih =>
    intro t h h2 h3
    simp only [List.foldl_cons]
    exact ih (replaceAll pr.1 pr.2 t)
      (occursIn_replaceAll_other pr.1 pr.2 q t (h2 pr (List.mem_cons_self pr l'))
        (h3 pr (List.mem_cons_self pr l')) h)
      (fun p hp => h2 p (List.mem_cons_of_mem pr hp))
      (fun p hp => h3 p (List.mem_cons_of_mem pr hp))

/-- After folding all the `replaceAll` steps of a pattern table whose
replacement strings avoid every pattern character, none of the patterns
occurs in the output. -/
theorem foldl_replaceAll_no_occurrence (l : List (List Char × List Char)) :
    ∀ (s : List Char), (∀ p ∈ l, p.1 ≠ []) → (∀ p ∈ l, p.2 ≠ []) →
      (∀ p ∈ l, ∀ q ∈ l, ∀ a ∈ p.2, a ∉ q.1) →
      ∀ p ∈ l, occursIn p.1 (l.foldl (fun t pr => replaceAll pr.1 pr.2 t) s) = false := by
  induction l with
  | nil => intro s _ _ _ p hp; cases hp
  | cons pr l' ih =>
    intro s h1 h2 h3 p hp
    simp only [List.foldl_cons]
    rcases List.mem_cons.mp hp with hEq | hMem
    · subst hEq
      apply foldl_replaceAll_preserves p.1 l' (replaceAll p.1 p.2 s)
      · exact occursIn_replaceAll_self p.1 p.2
          (h1 p (List.mem_cons_self p l')) (h2 p (List.mem_cons_self p l'))
          (fun a ha1 ha2 =>
            h3 p (List.mem_cons_self p l') p (List.mem_cons_self p l') a ha2 ha1) s
      · exact fun p' hp' => h2 p' (List.mem_cons_of_mem p hp')
      · exact fun p' hp' a ha =>
          h3 p' (List.mem_cons_of_mem p hp') p (List.mem_cons_self p l') a ha
    · exact ih (replaceAll pr.1 pr.2 s)
        (fun p' hp' => h1 p' (List.mem_cons_of_mem pr hp'))
        (fun p' hp' => h2 p' (List.mem_cons_of_mem pr hp'))
        (fun p' hp' q hq a ha =>
          h3 p' (List.mem_cons_of_mem pr hp') q (List.mem_cons_of_mem pr hq) a ha)
        p hMem

/-- C1: the claim states that every whitespace-delimited token whose
lowercase form is not a key of the translation mapping appears verbatim in
the output of `translate_to_urdu`.  This is false: the input `"this"` is a
single token, its lowercase form `"this"` is not a key of the mapping, yet
the translator rewrites it to `"thہے"` because the replacement is a naive
substring replacement (the key `"is"` occurs inside the token), so the token
does not appear in the output at all. -/
theorem C1_counterexample :
    splitWs (("this").data) = [("this").data]
  ∧ List.map Char.toLower (("this").data) ∉
      AdvancedTextProcessor.translation_patterns.map Prod.fst
  ∧ AdvancedTextProcessor.translate_to_urdu (("this").data) = ("thہے").data
  ∧ ("this").data ∉ splitWs (AdvancedTextProcessor.translate_to_urdu (("this").data)) := by
  decide

/-- C1 (amended): `translate_to_urdu` performs sequential case-sensitive
substring replacement with no word-boundary check, so unmapped tokens are
not preserved in general; what does hold is that any input containing no
occurrence of any mapped English pattern as a substring is returned
completely unchanged. -/
theorem C1_no_pattern_unchanged (s : List Char)
    (h : ∀ p ∈ AdvancedTextProcessor.translation_patterns, occursIn p.1 s = false) :
    AdvancedTextProcessor.translate_to_urdu s = s :=
  foldl_replaceAll_eq_self AdvancedTextProcessor.translation_patterns s h

/-- C1 witness: the text `"cat dog box"` contains no occurrence of any
mapped pattern and passes through `translate_to_urdu` unchanged. -/
theorem C1_witness :
    (∀ p ∈ AdvancedTextProcessor.translation_patterns,
      occursIn p.1 (("cat dog box").data) = false)
  ∧ AdvancedTextProcessor.translate_to_urdu (("cat dog box").data)
      = ("cat dog box").data :=
  ⟨by decide, C1_no_pattern_unchanged (("cat dog box").data) (by decide)⟩

/-- C2: on the input `"the cat is in the box"` the translator, whose mapping
contains `the:اس`, `is:ہے` and `in:میں`, produces exactly
`"اس cat ہے میں اس box"`. -/
theorem C2_example_sentence :
    AdvancedTextProcessor.translate_to_urdu (("the cat is in the box").data)
      = ("اس cat ہے میں اس box").data
  ∧ (("the").data, ("اس").data) ∈ AdvancedTextProcessor.translation_patterns
  ∧ (("is").data, ("ہے").data) ∈ AdvancedTextProcessor.translation_patterns
  ∧ (("in").data, ("میں").data) ∈ AdvancedTextProcessor.translation_patterns := by
  decide

/-- C3: the claim states that an input with fewer than the configured
minimum number of words (e.g. 10) is rejected before any external call.
This is false: the submit handler of `main` only tests
`if input_text.strip():`, so the one-word input `"hi"` (1 < 10 words) takes
the `process` branch, which constructs the processors and calls the
external services. -/
theorem C3_counterexample :
    (splitWs (("hi").data)).length = 1
  ∧ (splitWs (("hi").data)).length < 10
  ∧ main_gate (("hi").data) = MainAction.process := by
  decide

/-- C3 (amended): the only input rejection in `main` is the emptiness test
`if input_text.strip():` — an input is turned away with the warning (and
without any external call) exactly when it is empty or all whitespace; any
input with at least one non-whitespace character is processed, with no
minimum word count. -/
theorem C3_gate_rejects_only_empty (input_text : List Char) :
    main_gate input_text = MainAction.warnEmptyInput ↔ pyStrip input_text = [] := by
  unfold main_gate
  by_cases h : pyStrip input_text = [] <;> simp [h]

/-- C6: the translator is a total deterministic pure function — it is
defined on every input string (always returns a value) and two runs on equal
inputs with the fixed mapping give equal outputs. -/
theorem C6_translator_deterministic_total (s t : List Char) (h : s = t) :
    (∃ r : List Char, AdvancedTextProcessor.translate_to_urdu s = r)
  ∧ AdvancedTextProcessor.translate_to_urdu s
      = AdvancedTextProcessor.translate_to_urdu t :=
  ⟨⟨AdvancedTextProcessor.translate_to_urdu s, rfl⟩, by rw [h]⟩

/-- C6 witness at the concrete input `"the"`. -/
theorem C6_witness :
    (∃ r : List Char, AdvancedTextProcessor.translate_to_urdu (("the").data) = r)
  ∧ AdvancedTextProcessor.translate_to_urdu (("the").data)
      = AdvancedTextProcessor.translate_to_urdu (("the").data) :=
  C6_translator_deterministic_total (("the").data) (("the").data) rfl

/-- C10: `translate_to_urdu` is idempotent: every replacement value consists
of non-ASCII Urdu characters, none of which occurs in any English pattern,
so a first pass eliminates every occurrence of every mapped pattern and
cannot create new ones; the second pass is therefore the identity. -/
theorem C10_translator_idempotent (s : List Char) :
    AdvancedTextProcessor.translate_to_urdu (AdvancedTextProcessor.translate_to_urdu s)
      = AdvancedTextProcessor.translate_to_urdu s :=
  foldl_replaceAll_eq_self AdvancedTextProcessor.translation_patterns
    (AdvancedTextProcessor.translate_to_urdu s)
    (fun p hp =>
      foldl_replaceAll_no_occurrence AdvancedTextProcessor.translation_patterns s
        (by decide) (by decide) (by decide) p hp)

/-- C4: the claim states that whenever the summarization call raises, the
summary equals the first sentence (or the first 200 characters when no
sentence boundary is found) and the analysis as a whole still returns a
result.  The second part is false in the very case the truncation branch
addresses: under an oracle whose summarizer raises on the empty text — for
which `sent_tokenize` finds no sentence — `generate_comprehensive_explanation`
raises a `ZeroDivisionError` while computing `avg_sentence_length`, so no
result (and no summary field) is delivered. -/
theorem C4_counterexample :
    AdvancedTextAnalyzer.failOracle.summarize [] = none
  ∧ AdvancedTextAnalyzer.failOracle.sent_tokenize [] = []
  ∧ AdvancedTextAnalyzer.generate_comprehensive_explanation
      AdvancedTextAnalyzer.failOracle []
      = Except.error AdvancedTextAnalyzer.PyErr.zeroDivision := by
  refine ⟨rfl, rfl, ?_⟩
  rfl

/-- C4 (amended): whenever the summarization call raises, the failure is not
propagated: the summary is replaced by the fallback value (the first
sentence, or the first 200 input characters when no sentence boundary is
found), and provided sentence tokenization finds at least one sentence the
analysis returns a result whose summary field is that fallback (with zero
sentences the analysis instead fails with a division by zero, independently
of summarization — see C9). -/
theorem C4_summary_fallback (o : AdvancedTextAnalyzer.Oracle) (text : List Char)
    (hfail : o.summarize text = none) (hs : o.sent_tokenize text ≠ []) :
    AdvancedTextAnalyzer.summaryOf
        (AdvancedTextAnalyzer.generate_comprehensive_explanation o text)
      = some (AdvancedTextAnalyzer.summary_fallback (o.sent_tokenize text) text) := by
  have hlen : (o.sent_tokenize text).length ≠ 0 :=
    fun h => hs (List.length_eq_zero.mp h)
  simp [AdvancedTextAnalyzer.generate_comprehensive_explanation, hfail, hlen,
    AdvancedTextAnalyzer.summaryOf]

/-- C4 witness: under `failOracle` the one-sentence text `"hi"` gets the
first sentence as its summary and the analysis succeeds. -/
theorem C4_witness :
    AdvancedTextAnalyzer.summaryOf
        (AdvancedTextAnalyzer.generate_comprehensive_explanation
          AdvancedTextAnalyzer.failOracle (("hi").data))
      = some (AdvancedTextAnalyzer.summary_fallback
          (AdvancedTextAnalyzer.failOracle.sent_tokenize (("hi").data)) (("hi").data)) :=
  C4_summary_fallback AdvancedTextAnalyzer.failOracle (("hi").data) rfl (by decide)

/-- C5: with an empty entities mapping the assembler renders the entity
section (the second explanation component) with an explicit empty-state
notice — it reports zero discovered entities — and, being a pure string
construction, it throws nothing. -/
theorem C5_empty_entities_section (la : AdvancedTextAnalyzer.LinguisticAnalysis)
    (st : AdvancedTextAnalyzer.Sentiment) (key_phrases : List (List Char))
    (summary : List Char) :
    (AdvancedTextAnalyzer.explanation_components la [] st key_phrases summary).get? 1
      = some (AdvancedTextAnalyzer.entity_component [])
  ∧ AdvancedTextAnalyzer.entity_component []
      = ("Key Entities: Discovered 0 significant entities across categories like .").data := by
  exact ⟨rfl, by decide⟩

/-- C7: in the `app.py` variant, when the generative-AI call raises, the
bare `except Exception` handler catches it, exactly the warning
`"AI-powered explanation failed. Using fallback method."` is logged, and the
function returns the deterministic template-based fallback explanation —
the failure never propagates to the caller. -/
theorem C7_generation_failure_fallback
    (gen : List Char → Option (List Char))
    (text_generator : Option (List Char → Option (List Char)))
    (analysis : AdvancedTextProcessor.AppAnalysis) (text : List Char)
    (hfail : gen (AdvancedTextProcessor.explanation_prompt_preamble ++ text) = none) :
    AdvancedTextProcessor.generate_comprehensive_explanation
        (some gen) text_generator analysis text
      = (AdvancedTextProcessor.explanation_template analysis
          (AdvancedTextProcessor.generate_interpretative_text text_generator text),
         [AdvancedTextProcessor.ai_failed_warning]) := by
  simp [AdvancedTextProcessor.generate_comprehensive_explanation, hfail]

/-- C7 witness: a concrete always-failing generative model on a concrete
text yields the fallback template and the single warning. -/
theorem C7_witness :
    AdvancedTextProcessor.generate_comprehensive_explanation
        (some (fun _ => none)) (some (fun _ => none))
        AdvancedTextProcessor.sampleAnalysis (("the cat is in the box").data)
      = (AdvancedTextProcessor.explanation_template AdvancedTextProcessor.sampleAnalysis
          (AdvancedTextProcessor.generate_interpretative_text (some (fun _ => none))
            (("the cat is in the box").data)),
         [AdvancedTextProcessor.ai_failed_warning]) :=
  C7_generation_failure_fallback (fun _ => none) (some (fun _ => none))
    AdvancedTextProcessor.sampleAnalysis (("the cat is in the box").data) rfl

/-- C8: whenever `generate_advanced_insights` produces a narrative, that
narrative is the interpolation of the feature values into exactly the
selected template of the fixed three-element candidate set
`insights_templates`; the unseeded `random.choice` is modelled by the free
index `choice`. -/
theorem C8_insights_template_choice (o : AdvancedTextAnalyzer.Oracle) (choice : Fin 3)
    (text : List Char) (a : AdvancedTextAnalyzer.AnalyzerResult)
    (h : AdvancedTextAnalyzer.generate_comprehensive_explanation o text = Except.ok a) :
    AdvancedTextAnalyzer.insights_templates.length = 3
  ∧ AdvancedTextAnalyzer.generate_advanced_insights o choice text
      = Except.ok (AdvancedTextAnalyzer.format_insights_template choice
          (AdvancedTextAnalyzer.complexity_description a)
          (AdvancedTextAnalyzer.person_entities a)
          (AdvancedTextAnalyzer.sentiment_tone a)
          (AdvancedTextAnalyzer.top_key_phrases a)
          (("brevity and depth").data)
          (("contemporary discourse").data)) := by
  refine ⟨rfl, ?_⟩
  simp [AdvancedTextAnalyzer.generate_advanced_insights, h,
    AdvancedTextAnalyzer.complexity_description, AdvancedTextAnalyzer.sentiment_tone,
    AdvancedTextAnalyzer.person_entities, AdvancedTextAnalyzer.top_key_phrases]

/-- C8 witness: under `failOracle` on the text `"hi"`, template 0 is
interpolated with the concrete analysis `hiAnalysis`. -/
theorem C8_witness :
    AdvancedTextAnalyzer.generate_comprehensive_explanation
        AdvancedTextAnalyzer.failOracle (("hi").data)
      = Except.ok AdvancedTextAnalyzer.hiAnalysis
  ∧ AdvancedTextAnalyzer.insights_templates.length = 3
  ∧ AdvancedTextAnalyzer.generate_advanced_insights
        AdvancedTextAnalyzer.failOracle 0 (("hi").data)
      = Except.ok (AdvancedTextAnalyzer.format_insights_template 0
          (AdvancedTextAnalyzer.complexity_description AdvancedTextAnalyzer.hiAnalysis)
          (AdvancedTextAnalyzer.person_entities AdvancedTextAnalyzer.hiAnalysis)
          (AdvancedTextAnalyzer.sentiment_tone AdvancedTextAnalyzer.hiAnalysis)
          (AdvancedTextAnalyzer.top_key_phrases AdvancedTextAnalyzer.hiAnalysis)
          (("brevity and depth").data)
          (("contemporary discourse").data)) := by
  have h : AdvancedTextAnalyzer.generate_comprehensive_explanation
      AdvancedTextAnalyzer.failOracle (("hi").data)
      = Except.ok AdvancedTextAnalyzer.hiAnalysis := rfl
  have h2 := C8_insights_template_choice AdvancedTextAnalyzer.failOracle 0
    (("hi").data) AdvancedTextAnalyzer.hiAnalysis h
  exact ⟨h, h2.1, h2.2⟩

/-- C9: `generate_comprehensive_explanation` is total exactly on inputs
whose sentence tokenization is nonempty: with zero sentences the computation
of `avg_sentence_length` divides by `len(sentences)` and the call fails with
a `ZeroDivisionError` instead of returning a result, and with at least one
sentence it returns a result. -/
theorem C9_requires_sentence (o : AdvancedTextAnalyzer.Oracle) (text : List Char) :
    (o.sent_tokenize text = [] →
      AdvancedTextAnalyzer.generate_comprehensive_explanation o text
        = Except.error AdvancedTextAnalyzer.PyErr.zeroDivision)
  ∧ (o.sent_tokenize text ≠ [] →
      AdvancedTextAnalyzer.isOkB
        (AdvancedTextAnalyzer.generate_comprehensive_explanation o text) = true) := by
  constructor
  · intro h
    simp [AdvancedTextAnalyzer.generate_comprehensive_explanation, h]
  · intro h
    have hlen : (o.sent_tokenize text).length ≠ 0 :=
      fun hh => h (List.length_eq_zero.mp hh)
    simp [AdvancedTextAnalyzer.generate_comprehensive_explanation, hlen,
      AdvancedTextAnalyzer.isOkB]

/-- C9 witness: under `failOracle`, the empty text (zero sentences) raises
the division error while the one-sentence text `"hi"` returns a result. -/
theorem C9_witness :
    AdvancedTextAnalyzer.generate_comprehensive_explanation
        AdvancedTextAnalyzer.failOracle []
      = Except.error AdvancedTextAnalyzer.PyErr.zeroDivision
  ∧ AdvancedTextAnalyzer.isOkB
      (AdvancedTextAnalyzer.generate_comprehensive_explanation
        AdvancedTextAnalyzer.failOracle (("hi").data)) = true :=
  ⟨(C9_requires_sentence AdvancedTextAnalyzer.failOracle []).1 rfl,
   (C9_requires_sentence AdvancedTextAnalyzer.failOracle (("hi").data)).2 (by decide)⟩
